import Mathlib

/-
  Verification of the Pulumi program `__main__.py` of docker-airflow-pulumi.

  The program is a declarative infrastructure definition: it builds container
  specifications (image, command, environment list, network attachment,
  health probe, restart policy, dependency edges) and submits them to the
  Pulumi engine.  We embed the declaration content of each `docker.Container`
  call as a Lean structure value, model Pulumi outputs (deferred values) as
  functions of a resolution record, and model the Python evaluation of the
  module body and of `make_management_infra` as a small statement-by-statement
  evaluator that tracks defined names, declared resources, and raised errors.
-/

namespace AirflowPulumi

/-- Resolution record for the deferred (Pulumi `Output.apply`) values consumed
by the environment composer: the externally supplied bucket name, access-key
id and secret, and the runtime-assigned names of the Database (Postgres) and
Cache (Redis) containers. -/
structure Res where
  bucket : String
  access_key_id : String
  access_key_secret : String
  db_name : String
  redis_name : String
deriving Repr

/-- An environment entry of the composed bundle: either an eager string
literal, or a deferred entry resolved once upstream identities are known
(the `Output.apply` pattern of lines 122-130 of `__main__.py`). -/
inductive EnvEntry where
  | lit (s : String)
  | deferred (f : Res → String)

/-- Resolve one environment entry against a resolution record. -/
def EnvEntry.resolve (e : EnvEntry) (r : Res) : String :=
  match e with
  | .lit s => s
  | .deferred f => f r

/-- `docker.ContainerPortArgs`. -/
structure ContainerPortArgs where
  internal : Nat
  external : Nat
deriving Repr, DecidableEq

/-- `docker.ContainerVolumeArgs`. -/
structure ContainerVolumeArgs where
  host_path : Option String := none
  container_path : String
  read_only : Bool
  volume_name : Option String := none
deriving Repr, DecidableEq

/-- `docker.ContainerHealthcheckArgs`. -/
structure ContainerHealthcheckArgs where
  tests : List String
  interval : Option String := none
  timeout : Option String := none
  retries : Option Nat := none
  start_period : Option String := none
deriving Repr, DecidableEq

/-- The declaration content of one `docker.Container(...)` call.
`resource_name` is the first positional argument (the Pulumi resource name);
`depends_on` lists the resource names of the containers referenced in
`pulumi.ResourceOptions(depends_on=[...])`. -/
structure Container where
  resource_name : String
  name : Option String := none
  image : String
  entrypoints : Option (List String) := none
  command : List String := []
  networks_advanced : List String := []
  healthcheck : Option ContainerHealthcheckArgs := none
  envs : List EnvEntry := []
  ports : List ContainerPortArgs := []
  volumes : List ContainerVolumeArgs := []
  user : Option String := none
  restart : Option String := none
  depends_on : List String := []

/-- Resolve every environment entry of a container against a resolution
record. -/
def resolvedEnvs (c : Container) (r : Res) : List String :=
  c.envs.map (fun e => e.resolve r)

/-- `make_airflow_mounted_volumes` (lines 8-18): a single host-path bind of
the local `../airflow` directory (the source passes it through
`os.path.abspath`, whose result depends on the working directory and is not
modelled) onto `/opt/airflow`, writable.  The `client_name` argument is
unused, exactly as in the source. -/
def make_airflow_mounted_volumes (client_name : String) : List ContainerVolumeArgs :=
  [ { host_path := some ("../airflow"),
      container_path := "/opt/airflow",
      read_only := false } ]

/-- The Postgres container declaration (lines 29-59).  The source references
the global name `POSTGRES_PORT` for the external port; that name is defined
nowhere in the program (see the evaluation model below), so the declaration
content is parametric in it.  `network_name` is the resolved network name and
`volume_name` the resolved name of `airflow_postgres_volume`. -/
def postgres_container ( POSTGRES_PORT : Nat) (network_name volume_name : String) : Container :=
  { resource_name := "airflow_postgres",
    name := some ("airflow_postgres"),
    image := "postgres:16-bookworm",
    networks_advanced := [network_name],
    restart := some ("unless-stopped"),
    volumes := [ { container_path := "/var/lib/postgresql/data",
                   read_only := false,
                   volume_name := some volume_name } ],
    envs := [ .lit ("POSTGRES_PASSWORD=airflow"),
              .lit ("POSTGRES_USER=airflow"),
              .lit ("POSTGRES_DB=airflow") ],
    ports := [ { internal := 5432, external := POSTGRES_PORT } ],
    healthcheck := some
      { tests := ["CMD", "pg_isready", "-U", "airflow"],
        interval := some ("10s"),
        retries := some 5,
        start_period := some ("5s") },
    command := ["postgres"] }

/-- The Redis container declaration (lines 68-86). -/
def redis_container (network_name : String) : Container :=
  { resource_name := "airflow-redis",
    image := "redis:7.2-bookworm",
    ports := [ { internal := 6379, external := 6379 } ],
    networks_advanced := [network_name],
    healthcheck := some
      { tests := ["CMD", "redis-cli", "ping"],
        interval := some ("10s"),
        timeout := some ("30s"),
        retries := some 50,
        start_period := some ("30s") },
    restart := some ("unless-stopped") }

/-- The lambda of lines 126-128: the metadata-store connection string built
from the resolved Database container name. -/
def sql_alchemy_conn_of (name : String) : String :=
  "AIRFLOW__DATABASE__SQL_ALCHEMY_CONN=postgresql+psycopg2://airflow:airflow@" ++ name ++ ":5432/airflow"

/-- The lambda of line 129: the Celery result-backend connection string built
from the resolved Database container name. -/
def result_backend_of (name : String) : String :=
  "AIRFLOW__CELERY__RESULT_BACKEND=db+postgresql://airflow:airflow@" ++ name ++ ":5432/airflow"

/-- The lambda of line 130: the Celery broker URL built from the resolved
Redis container name. -/
def broker_url_of (name : String) : String :=
  "AIRFLOW__CELERY__BROKER_URL=redis://:@" ++ name ++ ":6379/0"

/-- `common_envs` (lines 117-134): the shared environment bundle.  Eager
entries are literals; deferred entries apply the source's lambdas to the
resolution record. -/
def common_envs (aws_region : String) : List EnvEntry :=
  [ .lit ("AWS_REGION=" ++ aws_region),
    .deferred (fun r => "S3_BUCKET_URL=s3://" ++ r.bucket),
    .deferred (fun r => "AWS_ACCESS_KEY=" ++ r.access_key_id),
    .deferred (fun r => "AWS_SECRETS_TOKEN=" ++ r.access_key_secret),
    .lit ("AIRFLOW__CORE__EXECUTOR=CeleryExecutor"),
    .deferred (fun r => sql_alchemy_conn_of r.db_name),
    .deferred (fun r => result_backend_of r.db_name),
    .deferred (fun r => broker_url_of r.redis_name),
    .lit ("AIRFLOW__CORE__DAGS_ARE_PAUSED_AT_CREATION=true"),
    .lit ("AIRFLOW__API__AUTH_BACKENDS=airflow.api.auth.backend.basic_auth,airflow.api.auth.backend.session"),
    .lit ("AIRFLOW__WEBSERVER__SECRET_KEY:false") ]

/-- The shared bundle with every entry resolved. -/
def resolvedCommon (aws_region : String) (r : Res) : List String :=
  (common_envs aws_region).map (fun e => e.resolve r)

/-- The lines of the triple-quoted bootstrap script passed to the init
container (lines 144-198 of `__main__.py`), byte for byte: the string opens
with a line holding two spaces, most lines carry two trailing spaces, and the
script ends with a newline (hence the final empty line). -/
def init_script_lines : List String :=
  [ "  ",
    "if [[ -z \"$\x7bAIRFLOW_UID\x7d\" ]]; then  ",
    "    echo  ",
    "    echo -e \"\\033[1;33mWARNING!!!: AIRFLOW_UID not set!\\e[0m\"  ",
    "    echo \"If you are on Linux, you SHOULD follow the instructions below to set \"  ",
    "    echo \"AIRFLOW_UID environment variable, otherwise files will be owned by root.\"  ",
    "    echo \"For other operating systems you can get rid of the warning with manually created .env file:\"  ",
    "    echo \"    See: https://airflow.apache.org/docs/apache-airflow/stable/howto/docker-compose/index.html#setting-the-right-airflow-user\"  ",
    "    echo  ",
    "fi  ",
    "one_meg=1048576  ",
    "mem_available=$(( $(getconf _PHYS_PAGES) * $(getconf PAGE_SIZE) / one_meg ))  ",
    "cpus_available=$(grep -cE \x27cpu[0-9]+\x27 /proc/stat)  ",
    "disk_available=$(df / | tail -1 | awk \x27\x7bprint $4\x7d\x27)  ",
    "warning_resources=\"false\"  ",
    "if (( mem_available < 4000 )); then  ",
    "    echo  ",
    "    echo -e \"\\033[1;33mWARNING!!!: Not enough memory available for Docker.\\e[0m\"  ",
    "    echo \"At least 4GB of memory required. You have $(numfmt --to iec $((mem_available * one_meg)))\"  ",
    "    echo  ",
    "    warning_resources=\"true\"  ",
    "fi  ",
    "if (( cpus_available < 2 )); then  ",
    "    echo  ",
    "    echo -e \"\\033[1;33mWARNING!!!: Not enough CPUS available for Docker.\\e[0m\"  ",
    "    echo \"At least 2 CPUs recommended. You have $\x7bcpus_available\x7d\"  ",
    "    echo  ",
    "    warning_resources=\"true\"  ",
    "fi  ",
    "if (( disk_available < one_meg * 10 )); then  ",
    "    echo  ",
    "    echo -e \"\\033[1;33mWARNING!!!: Not enough Disk space available for Docker.\\e[0m\"  ",
    "    echo \"At least 10 GBs recommended. You have $(numfmt --to iec $((disk_available * 1024)))\"  ",
    "    echo  ",
    "    warning_resources=\"true\"  ",
    "fi  ",
    "if [[ $\x7bwarning_resources\x7d == \"true\" ]]; then  ",
    "    echo  ",
    "    echo -e \"\\033[1;33mWARNING!!!: You have not enough resources to run Airflow (see above)!\\e[0m\"  ",
    "    echo \"Please follow the instructions to increase amount of resources available:\"  ",
    "    echo \"   https://airflow.apache.org/docs/apache-airflow/stable/howto/docker-compose/index.html#before-you-begin\"  ",
    "    echo  ",
    "fi ",
    "mkdir -p /sources/logs /sources/dags /sources/plugins",
    "chown -R \"$\x7bAIRFLOW_UID:-0\x7d:0\" /sources/\x7blogs,dags,plugins\x7d",
    "echo \"Starting airflow here is the version\" ",
    "/entrypoint airflow db version",
    "echo \"Starting db init\"",
    "/entrypoint airflow db init ",
    "echo \"finished db init\"",
    "/entrypoint airflow db migrate",
    "echo \"finished migrate\"",
    "exec /entrypoint airflow db check ",
    "echo \"Finished\"",
    "" ]

/-- The bootstrap script as the single string the source passes after `-c`. -/
def init_script : String :=
  String.intercalate ("\n") init_script_lines

/-- The Airflow image reference of lines 109-112 for a given version tag. -/
def airflow_image_name (airflow_version : String) : String :=
  "apache/airflow:" ++ airflow_version

/-- The `airflow-init` container declaration (lines 139-212).  It runs the
bootstrap script under `/bin/bash -c`, appends the bootstrap-user entries to
the shared bundle, runs as root, restarts on failure, and declares a single
dependency edge on the Database container. -/
def airflow_init (airflow_version aws_region network_name : String) : Container :=
  { resource_name := "airflow-init",
    image := airflow_image_name airflow_version,
    entrypoints := some ["/bin/bash"],
    command := ["-c", init_script],
    networks_advanced := [network_name],
    envs := common_envs aws_region ++
      [ .lit ("_AIRFLOW_WWW_USER_CREATE=true"),
        .lit ("_AIRFLOW_WWW_USER_USERNAME=airflow"),
        .lit ("_AIRFLOW_WWW_USER_PASSWORD=airflow") ],
    volumes := make_airflow_mounted_volumes ("Test Client"),
    user := some ("0:0"),
    restart := some ("on-failure"),
    depends_on := ["airflow_postgres"] }

/-- The `airflow-webserver` container declaration (lines 216-231). -/
def airflow_webserver (airflow_version aws_region network_name : String) : Container :=
  { resource_name := "airflow-webserver",
    image := airflow_image_name airflow_version,
    command := ["webserver"],
    networks_advanced := [network_name],
    restart := some ("unless-stopped"),
    volumes := make_airflow_mounted_volumes ("Test Client"),
    envs := common_envs aws_region,
    ports := [ { internal := 8080, external := 8080 } ],
    depends_on := ["airflow-init", "airflow_postgres"] }

/-- The `airflow-celery-worker` container declaration (lines 235-255).  Note:
the source passes no `opts`, so this container declares no dependency
edges. -/
def airflow_celery_worker (airflow_version aws_region network_name : String) : Container :=
  { resource_name := "airflow-celery-worker",
    image := airflow_image_name airflow_version,
    command := ["celery", "worker"],
    networks_advanced := [network_name],
    healthcheck := some
      { tests :=
          [ "CMD-SHELL",
            "celery --app airflow.providers.celery.executors.celery_executor.app inspect ping -d \"celery@$$\x7bHOSTNAME\x7d\" || celery --app airflow.executors.celery_executor.app inspect ping -d \"celery@$$\x7bHOSTNAME\x7d\"" ],
        interval := some ("30s"),
        timeout := some ("10s"),
        retries := some 5,
        start_period := some ("30s") },
    envs := common_envs aws_region ++ [ .lit ("DUMB_INIT_SETSID=0") ],
    restart := some ("unless-stopped"),
    volumes := make_airflow_mounted_volumes ("Test Client") }

/-- The `airflow-scheduler` container declaration (lines 259-279).  Its extra
environment entry `DB_HOST=...` is built from the Redis container's resolved
name, and its dependency edges are Init and the Redis container. -/
def airflow_scheduler (airflow_version aws_region network_name : String) : Container :=
  { resource_name := "airflow-scheduler",
    image := airflow_image_name airflow_version,
    entrypoints := some ["/bin/bash"],
    command := ["-c", "/entrypoint airflow scheduler"],
    networks_advanced := [network_name],
    healthcheck := some
      { tests := ["CMD", "curl", "--fail", "http://localhost:8974/health"],
        interval := some ("30s"),
        timeout := some ("10s"),
        retries := some 5,
        start_period := some ("30s") },
    envs := common_envs aws_region ++ [ .deferred (fun r => "DB_HOST=" ++ r.redis_name) ],
    restart := some ("unless-stopped"),
    volumes := make_airflow_mounted_volumes ("Test Client"),
    depends_on := ["airflow-init", "airflow-redis"] }

/-- The `airflow-triggerer` container declaration (lines 283-306).  Its
dependency edges are Init and the Database container. -/
def airflow_triggerer (airflow_version aws_region network_name : String) : Container :=
  { resource_name := "airflow-triggerer",
    image := airflow_image_name airflow_version,
    entrypoints := some ["/bin/bash"],
    command := ["-c", "/entrypoint airflow triggerer"],
    networks_advanced := [network_name],
    healthcheck := some
      { tests :=
          [ "CMD-SHELL",
            "airflow jobs check --job-type TriggererJob --hostname \"$$\x7bHOSTNAME\x7d\"" ],
        interval := some ("30s"),
        timeout := some ("10s"),
        retries := some 5,
        start_period := some ("30s") },
    envs := common_envs aws_region,
    restart := some ("unless-stopped"),
    volumes := make_airflow_mounted_volumes ("Test Client"),
    depends_on := ["airflow-init", "airflow_postgres"] }

/-- The `airflow-flower` container declaration (lines 310-331).  The source
passes no `opts`, so this container declares no dependency edges. -/
def airflow_flower (airflow_version aws_region network_name : String) : Container :=
  { resource_name := "airflow-flower",
    image := airflow_image_name airflow_version,
    command := ["celery", "flower"],
    networks_advanced := [network_name],
    healthcheck := some
      { tests := ["CMD", "curl", "--fail", "http://localhost:5555/"],
        interval := some ("30s"),
        timeout := some ("10s"),
        retries := some 5,
        start_period := some ("30s") },
    ports := [ { internal := 5555, external := 5555 } ],
    envs := common_envs aws_region,
    restart := some ("unless-stopped"),
    volumes := make_airflow_mounted_volumes ("Test Client") }

/-- Dependency-edge semantics: a container may be declared active only once
every resource in its `depends_on` set has completed. -/
def canActivate (completed : List String) (c : Container) : Bool :=
  c.depends_on.all (fun d => completed.contains d)

/-! ### A small model of the Python evaluation of the driver code

Pulumi Python programs declare resources by executing the module top to
bottom; an uncaught exception stops execution, and resources whose
declaring statement was never reached are never declared.  We model the
statement sequences of `make_management_infra` (lines 20-91) and of the
module body (lines 336-346) explicitly: each statement lists the free
names it reads (in evaluation order), the names it binds on success, the
resources it declares on success, an optional unconditional exception
(raised after the names resolve), and an optional required configuration
key (the `config.require` semantics). -/

/-- A Python runtime error relevant to this program. -/
inductive PyError where
  | nameError (n : String)
  | typeError (msg : String)
  | missingConfig (key : String)
deriving Repr, DecidableEq

/-- One top-level Python statement of the driver. -/
structure Stmt where
  refs : List String := []
  defines : List String := []
  declares : List String := []
  raises : Option PyError := none
  requiredKey : Option String := none
deriving Repr, DecidableEq

/-- Evaluate one statement: resolve each referenced name (a missing name is
a `NameError`), then raise the statement's own exception if any, then check
the required configuration key; on success return the bound names and the
declared resources. -/
def evalStmt (cfg : List (String × String)) (defined : List String) (s : Stmt) :
    Except PyError (List String × List String) :=
  match s.refs.find? (fun n => ! defined.contains n) with
  | some n => .error (.nameError n)
  | none =>
    match s.raises with
    | some e => .error e
    | none =>
      match s.requiredKey with
      | some k =>
        match cfg.lookup k with
        | none => .error (.missingConfig k)
        | some _ => .ok (s.defines, s.declares)
      | none => .ok (s.defines, s.declares)

/-- The outcome of running a statement sequence: the resources declared so
far, the number of statements that started evaluating, and the error that
stopped execution, if any. -/
structure RunResult where
  declared : List String
  steps : Nat
  err : Option PyError
deriving Repr, DecidableEq

/-- Run a statement sequence from a set of defined names, accumulating
declared resources; execution stops at the first error. -/
def runStmts (cfg : List (String × String)) (defined declared : List String)
    (steps : Nat) : List Stmt → RunResult
  | [] => { declared := declared, steps := steps, err := none }
  | s :: rest =>
    match evalStmt cfg defined s with
    | .error e => { declared := declared, steps := steps + 1, err := some e }
    | .ok (defs, decls) =>
        runStmts cfg (defined ++ defs) (declared ++ decls) (steps + 1) rest

/-- The module-level names in scope inside `make_management_infra`: the four
imports, the three module functions, and the `network` parameter.  The name
`POSTGRES_PORT` is bound nowhere in the program. -/
def mgmt_names : List String :=
  [ "os", "pulumi", "docker", "aws",
    "make_airflow_mounted_volumes", "make_management_infra", "make_airflow_docker",
    "network" ]

/-- The statements of `make_management_infra` (lines 20-91), with the free
names each one reads in evaluation order. -/
def make_management_infra_stmts : List Stmt :=
  [ { refs := ["docker"], defines := ["postgres_image"] },
    { refs := ["docker", "postgres_image"],
      declares := ["remote_image:airflow_postgres"],
      defines := ["postgres_remote_image"] },
    { refs := ["docker"],
      declares := ["volume:airflow_postgres_volume"],
      defines := ["postgres_volume"] },
    { refs := ["docker", "postgres_remote_image", "network", "postgres_volume",
               "POSTGRES_PORT"],
      declares := ["container:airflow_postgres"],
      defines := ["postgres_container"] },
    { refs := ["docker"],
      declares := ["remote_image:airflow-redis-image"],
      defines := ["redis_image"] },
    { refs := ["docker", "redis_image", "network"],
      declares := ["container:airflow-redis"],
      defines := ["redis_container"] },
    { refs := ["pulumi", "postgres_container"],
      declares := ["export:postgres_container_id"] },
    { refs := ["pulumi", "redis_container"],
      declares := ["export:redis_container_id"] } ]

/-- Run `make_management_infra` (the `network` argument only affects field
values, never control flow, so the run is closed). -/
def run_make_management_infra : RunResult :=
  runStmts [] mgmt_names [] 0 make_management_infra_stmts

/-- The module-level names in scope when the module body (lines 336-346)
starts executing: the imports and the three function definitions.  Neither
`s3_bucket` nor `access_secrets` is ever bound. -/
def module_names : List String :=
  [ "os", "pulumi", "docker", "aws",
    "make_airflow_mounted_volumes", "make_management_infra", "make_airflow_docker" ]

/-- The module body (lines 336-346).  `pulumi.config` is the `pulumi.config`
module object, not the `pulumi.Config` class, so the call at line 336 raises
a `TypeError` unconditionally.  The two `config.require` statements carry
the required-key semantics, and the final call reads the undefined names
`s3_bucket` and `access_secrets`. -/
def module_body_stmts : List Stmt :=
  [ { refs := ["pulumi"],
      raises := some (.typeError ("pulumi.config module object is not callable")),
      defines := ["config"] },
    { refs := ["config"], requiredKey := some ("awsregion"),
      defines := ["AWS_REGION"] },
    { refs := ["config"], requiredKey := some ("airflowversion"),
      defines := ["AIRFLOW_VERSION"] },
    { refs := ["make_airflow_docker", "AIRFLOW_VERSION", "AWS_REGION",
               "s3_bucket", "access_secrets"],
      declares := ["call:make_airflow_docker"] } ]

/-- Run the module body against a configuration map. -/
def run_module (cfg : List (String × String)) : RunResult :=
  runStmts cfg module_names [] 0 module_body_stmts

/-! ### Environment keys

The key of a `KEY=VALUE` entry, as a character list: everything before the
first `=` (the whole string when no `=` occurs). -/

/-- The key part of an environment entry. -/
def envKeyChars (s : String) : List Char :=
  s.data.takeWhile (fun c => c != '=')

/-- A Boolean test for containing an equals sign. -/
def hasEqSign (s : String) : Bool :=
  s.data.any (fun c => c == '=')

/-- A Boolean substring test, used to locate the bootstrap commands inside
the init script. -/
def containsSubstring (needle hay : String) : Bool :=
  hay.data.tails.any (fun t => needle.data.isPrefixOf t)

lemma takeWhile_append_of_contains (p : Char → Bool) (l₂ : List Char) :
    ∀ l₁ : List Char, (l₁.any (fun c => ! p c)) = true →
      (l₁ ++ l₂).takeWhile p = l₁.takeWhile p := by
  intro l₁
  induction l₁ with
  | nil => intro h; simp at h
  | cons a t ih =>
    intro h
    by_cases hp : p a = true
    · simp only [List.any_cons, hp, Bool.not_true, Bool.false_or] at h
      simp [List.takeWhile_cons, hp, ih h]
    · simp [List.takeWhile_cons, hp]

lemma envKeyChars_append (k tail : String) (h : (k.data.any (fun c => c == '=')) = true) :
    envKeyChars (k ++ tail) = envKeyChars k := by
  unfold envKeyChars
  rw [String.data_append]
  refine takeWhile_append_of_contains _ _ _ ?_
  simpa using h

lemma envKeyChars_append₂ (k x tail : String) (h : (k.data.any (fun c => c == '=')) = true) :
    envKeyChars ((k ++ x) ++ tail) = envKeyChars k := by
  unfold envKeyChars
  rw [String.data_append, String.data_append, List.append_assoc]
  refine takeWhile_append_of_contains _ _ _ ?_
  simpa using h

lemma hasEqSign_append_left (k tail : String) (h : hasEqSign k = true) :
    hasEqSign (k ++ tail) = true := by
  unfold hasEqSign at h ⊢
  rw [String.data_append, List.any_append, h, Bool.true_or]

/-! ### The claims -/

/-- C2: every invocation of `make_management_infra` raises a `NameError`
while building the Postgres container's port mapping, because
`POSTGRES_PORT` (line 51) is bound nowhere in the program; the Postgres
container declaration never completes, and the Redis container, the two
exports, and everything downstream are never reached — only the Postgres
remote image and volume declarations preceding line 29 are made. -/
theorem c2_make_management_infra_name_error :
    run_make_management_infra =
      { declared := ["remote_image:airflow_postgres", "volume:airflow_postgres_volume"],
        steps := 4,
        err := some (.nameError ("POSTGRES_PORT")) } ∧
    "POSTGRES_PORT" ∉ mgmt_names ∧
    (make_management_infra_stmts ++ module_body_stmts).all
      (fun s => ! s.defines.contains ("POSTGRES_PORT")) = true ∧
    "container:airflow_postgres" ∉ run_make_management_infra.declared ∧
    "container:airflow-redis" ∉ run_make_management_infra.declared ∧
    "export:postgres_container_id" ∉ run_make_management_infra.declared ∧
    "export:redis_container_id" ∉ run_make_management_infra.declared := by
  refine ⟨rfl, by decide, by decide, by decide, by decide, by decide, by decide⟩

/-- C3: under every configuration, the module body fails at line 336 — the
call `pulumi.config()` applies the `pulumi.config` module object, which is
not callable — before any resource is declared; the names `s3_bucket` and
`access_secrets` referenced at lines 344-345 are bound nowhere; control
never reaches `make_airflow_docker`. -/
theorem c3_driver_fails_before_declaration (cfg : List (String × String)) :
    run_module cfg =
      { declared := [],
        steps := 1,
        err := some (.typeError ("pulumi.config module object is not callable")) } ∧
    module_body_stmts.length = 4 ∧
    "s3_bucket" ∉ module_names ∧
    "access_secrets" ∉ module_names ∧
    (module_body_stmts.all (fun s => ! s.defines.contains ("s3_bucket"))) = true ∧
    (module_body_stmts.all (fun s => ! s.defines.contains ("access_secrets"))) = true ∧
    "call:make_airflow_docker" ∉ (run_module cfg).declared := by
  refine ⟨rfl, rfl, by decide, by decide, by decide, by decide, ?_⟩
  show "call:make_airflow_docker" ∉ ([] : List String)
  decide

/-- C6: evaluating the driver with the required configuration value
`awsregion` absent.  The code diverges from the claim: the run stops at the
very first statement with a `TypeError` (calling the `pulumi.config` module
object), so the two `config.require` statements — which do carry the
required keys `awsregion` and `airflowversion` — never execute, and no
resource (in particular not the Network) is declared. -/
theorem c6_missing_region_run :
    run_module [] =
      { declared := [],
        steps := 1,
        err := some (.typeError ("pulumi.config module object is not callable")) } ∧
    (run_module []).err ≠ some (.missingConfig ("awsregion")) ∧
    (module_body_stmts.get? 1).map (fun s => s.requiredKey) = some (some ("awsregion")) ∧
    (module_body_stmts.get? 2).map (fun s => s.requiredKey) = some (some ("airflowversion")) ∧
    (run_module []).steps = 1 ∧
    "network:local-airflow-v1-network" ∉ (run_module []).declared := by
  refine ⟨rfl, by decide, rfl, rfl, rfl, by decide⟩

/-- C1 counterexample: at a concrete deployment, the Celery-Worker and
Flower containers do not declare the Init container (nor anything else) in
their dependency sets, the Scheduler does not declare the Database
container, and the Triggerer does not declare the Cache container —
refuting the claim as stated. -/
theorem c1_counterexample :
    "airflow-init" ∉ (airflow_celery_worker ("2.9.0") ("us-east-1") ("net")).depends_on ∧
    "airflow-init" ∉ (airflow_flower ("2.9.0") ("us-east-1") ("net")).depends_on ∧
    "airflow_postgres" ∉ (airflow_scheduler ("2.9.0") ("us-east-1") ("net")).depends_on ∧
    "airflow-redis" ∉ (airflow_triggerer ("2.9.0") ("us-east-1") ("net")).depends_on := by
  decide

/-- C1 (amended): of the five long-running containers only Webserver,
Scheduler and Triggerer declare the Init container in their dependency
sets (Celery-Worker and Flower declare no dependencies at all); the
Scheduler additionally depends on the Cache (Redis) container and the
Triggerer additionally on the Database container; and as long as Init has
not completed, none of the three containers carrying the Init edge can be
declared active. -/
theorem c1_dependency_edges (v r n : String) (completed : List String)
    (h : ("airflow-init" : String) ∉ completed) :
    ([airflow_webserver v r n, airflow_scheduler v r n, airflow_triggerer v r n,
      airflow_celery_worker v r n, airflow_flower v r n].map Container.depends_on =
      [["airflow-init", "airflow_postgres"],
       ["airflow-init", "airflow-redis"],
       ["airflow-init", "airflow_postgres"],
       [], []]) ∧
    canActivate completed (airflow_webserver v r n) = false ∧
    canActivate completed (airflow_scheduler v r n) = false ∧
    canActivate completed (airflow_triggerer v r n) = false := by
  have hc : completed.contains ("airflow-init") = false := by simpa using h
  refine ⟨rfl, ?_, ?_, ?_⟩
  · simp only [canActivate, airflow_webserver, List.all_cons, List.all_nil, hc, Bool.false_and]
  · simp only [canActivate, airflow_scheduler, List.all_cons, List.all_nil, hc, Bool.false_and]
  · simp only [canActivate, airflow_triggerer, List.all_cons, List.all_nil, hc, Bool.false_and]

/-- C1 witness: the amended dependency statement evaluated at a concrete
deployment with an empty completed set. -/
theorem c1_dependency_edges_witness :
    (("airflow-init" : String) ∉ ([] : List String)) ∧
    (([airflow_webserver ("2.9.0") ("us-east-1") ("net"),
       airflow_scheduler ("2.9.0") ("us-east-1") ("net"),
       airflow_triggerer ("2.9.0") ("us-east-1") ("net"),
       airflow_celery_worker ("2.9.0") ("us-east-1") ("net"),
       airflow_flower ("2.9.0") ("us-east-1") ("net")].map Container.depends_on =
       [["airflow-init", "airflow_postgres"],
        ["airflow-init", "airflow-redis"],
        ["airflow-init", "airflow_postgres"],
        [], []]) ∧
     canActivate [] (airflow_webserver ("2.9.0") ("us-east-1") ("net")) = false ∧
     canActivate [] (airflow_scheduler ("2.9.0") ("us-east-1") ("net")) = false ∧
     canActivate [] (airflow_triggerer ("2.9.0") ("us-east-1") ("net")) = false) :=
  ⟨by decide, c1_dependency_edges ("2.9.0") ("us-east-1") ("net") [] (by decide)⟩

/-- C4 counterexample: `common_envs` has 11 entries, not 12. -/
theorem c4_counterexample : (common_envs ("us-east-1")).length ≠ 12 := by
  decide

/-- C4 (amended): all application containers and Init share the single
`common_envs` list (11 entries), so the resolved environment prefix is
byte-identical across all of them; Webserver, Triggerer and Flower consume
the shared list itself, while Init, Worker and Scheduler append their
component-specific entries after the shared prefix by list concatenation;
the keys of the shared prefix are fixed and none of the appended entries
shadows (or reorders) them. -/
theorem c4_shared_env_bundle (v r n : String) (res : Res) :
    (common_envs r).length = 11 ∧
    (airflow_webserver v r n).envs = common_envs r ∧
    (airflow_triggerer v r n).envs = common_envs r ∧
    (airflow_flower v r n).envs = common_envs r ∧
    resolvedEnvs (airflow_init v r n) res =
      resolvedCommon r res ++
        [ "_AIRFLOW_WWW_USER_CREATE=true", "_AIRFLOW_WWW_USER_USERNAME=airflow",
          "_AIRFLOW_WWW_USER_PASSWORD=airflow" ] ∧
    resolvedEnvs (airflow_celery_worker v r n) res =
      resolvedCommon r res ++ [ "DUMB_INIT_SETSID=0" ] ∧
    resolvedEnvs (airflow_scheduler v r n) res =
      resolvedCommon r res ++ [ "DB_HOST=" ++ res.redis_name ] ∧
    (resolvedCommon r res).map envKeyChars =
      [ "AWS_REGION".data, "S3_BUCKET_URL".data, "AWS_ACCESS_KEY".data,
        "AWS_SECRETS_TOKEN".data, "AIRFLOW__CORE__EXECUTOR".data,
        "AIRFLOW__DATABASE__SQL_ALCHEMY_CONN".data, "AIRFLOW__CELERY__RESULT_BACKEND".data,
        "AIRFLOW__CELERY__BROKER_URL".data, "AIRFLOW__CORE__DAGS_ARE_PAUSED_AT_CREATION".data,
        "AIRFLOW__API__AUTH_BACKENDS".data, "AIRFLOW__WEBSERVER__SECRET_KEY:false".data ] ∧
    "_AIRFLOW_WWW_USER_CREATE".data ∉ (resolvedCommon r res).map envKeyChars ∧
    "_AIRFLOW_WWW_USER_USERNAME".data ∉ (resolvedCommon r res).map envKeyChars ∧
    "_AIRFLOW_WWW_USER_PASSWORD".data ∉ (resolvedCommon r res).map envKeyChars ∧
    "DUMB_INIT_SETSID".data ∉ (resolvedCommon r res).map envKeyChars ∧
    envKeyChars ("DB_HOST=" ++ res.redis_name) = "DB_HOST".data ∧
    "DB_HOST".data ∉ (resolvedCommon r res).map envKeyChars := by
  have hkeys : (resolvedCommon r res).map envKeyChars =
      [ "AWS_REGION".data, "S3_BUCKET_URL".data, "AWS_ACCESS_KEY".data,
        "AWS_SECRETS_TOKEN".data, "AIRFLOW__CORE__EXECUTOR".data,
        "AIRFLOW__DATABASE__SQL_ALCHEMY_CONN".data, "AIRFLOW__CELERY__RESULT_BACKEND".data,
        "AIRFLOW__CELERY__BROKER_URL".data, "AIRFLOW__CORE__DAGS_ARE_PAUSED_AT_CREATION".data,
        "AIRFLOW__API__AUTH_BACKENDS".data, "AIRFLOW__WEBSERVER__SECRET_KEY:false".data ] := by
    simp only [resolvedCommon, common_envs, List.map_cons, List.map_nil, EnvEntry.resolve,
      sql_alchemy_conn_of, result_backend_of, broker_url_of]
    rw [envKeyChars_append ("AWS_REGION=") r (by decide),
        envKeyChars_append ("S3_BUCKET_URL=s3://") res.bucket (by decide),
        envKeyChars_append ("AWS_ACCESS_KEY=") res.access_key_id (by decide),
        envKeyChars_append ("AWS_SECRETS_TOKEN=") res.access_key_secret (by decide),
        envKeyChars_append₂
          ("AIRFLOW__DATABASE__SQL_ALCHEMY_CONN=postgresql+psycopg2://airflow:airflow@")
          res.db_name (":5432/airflow") (by decide),
        envKeyChars_append₂
          ("AIRFLOW__CELERY__RESULT_BACKEND=db+postgresql://airflow:airflow@")
          res.db_name (":5432/airflow") (by decide),
        envKeyChars_append₂ ("AIRFLOW__CELERY__BROKER_URL=redis://:@")
          res.redis_name (":6379/0") (by decide)]
    decide
  refine ⟨rfl, rfl, rfl, rfl, ?_, ?_, ?_, hkeys,
          by rw [hkeys]; decide, by rw [hkeys]; decide, by rw [hkeys]; decide,
          by rw [hkeys]; decide,
          by rw [envKeyChars_append ("DB_HOST=") res.redis_name (by decide)]; decide,
          by rw [hkeys]; decide⟩
  · simp [resolvedEnvs, airflow_init, resolvedCommon, EnvEntry.resolve]
  · simp [resolvedEnvs, airflow_celery_worker, resolvedCommon, EnvEntry.resolve]
  · simp [resolvedEnvs, airflow_scheduler, resolvedCommon, EnvEntry.resolve]

/-- C5: the metadata-store and result-backend connection strings are both
pure functions of the same resolved Database container name — they sit at
positions 5 and 6 of the shared bundle, both applied to `db_name` — and the
produced values differ only in scheme (`postgresql+psycopg2://` versus
`db+postgresql://`), with the identical remainder
`airflow:airflow@<name>:5432/airflow`. -/
theorem c5_connection_strings_same_identity (aws_region name : String) (res : Res) :
    (∃ rest, rest = "airflow:airflow@" ++ name ++ ":5432/airflow" ∧
      sql_alchemy_conn_of name =
        "AIRFLOW__DATABASE__SQL_ALCHEMY_CONN=postgresql+psycopg2://" ++ rest ∧
      result_backend_of name =
        "AIRFLOW__CELERY__RESULT_BACKEND=db+postgresql://" ++ rest) ∧
    (resolvedCommon aws_region res).get? 5 = some (sql_alchemy_conn_of res.db_name) ∧
    (resolvedCommon aws_region res).get? 6 = some (result_backend_of res.db_name) :=
  ⟨⟨"airflow:airflow@" ++ name ++ ":5432/airflow", rfl, rfl, rfl⟩, rfl, rfl⟩

/-- C7: at region `us-east-1`, bucket `my-bucket`, access key id `AKIA...`,
the resolved shared bundle contains `AWS_REGION=us-east-1`,
`S3_BUCKET_URL=s3://my-bucket`, `AWS_ACCESS_KEY=AKIA...`,
`AIRFLOW__CORE__EXECUTOR=CeleryExecutor`, and a database connection string
containing `@<resolved-db-name>:5432/airflow`. -/
theorem c7_end_to_end_env_entries (db_name redis_name secret : String) :
    "AWS_REGION=us-east-1" ∈
      resolvedCommon ("us-east-1") ⟨"my-bucket", "AKIA...", secret, db_name, redis_name⟩ ∧
    "S3_BUCKET_URL=s3://my-bucket" ∈
      resolvedCommon ("us-east-1") ⟨"my-bucket", "AKIA...", secret, db_name, redis_name⟩ ∧
    "AWS_ACCESS_KEY=AKIA..." ∈
      resolvedCommon ("us-east-1") ⟨"my-bucket", "AKIA...", secret, db_name, redis_name⟩ ∧
    "AIRFLOW__CORE__EXECUTOR=CeleryExecutor" ∈
      resolvedCommon ("us-east-1") ⟨"my-bucket", "AKIA...", secret, db_name, redis_name⟩ ∧
    (∃ e, e ∈ resolvedCommon ("us-east-1") ⟨"my-bucket", "AKIA...", secret, db_name, redis_name⟩ ∧
      ∃ pre, e = pre ++ ("@" ++ db_name ++ ":5432/airflow")) :=
  ⟨List.Mem.head _,
   List.Mem.tail _ (List.Mem.head _),
   List.Mem.tail _ (List.Mem.tail _ (List.Mem.head _)),
   List.Mem.tail _ (List.Mem.tail _ (List.Mem.tail _ (List.Mem.tail _ (List.Mem.head _)))),
   ⟨sql_alchemy_conn_of db_name,
    List.Mem.tail _ (List.Mem.tail _ (List.Mem.tail _ (List.Mem.tail _
      (List.Mem.tail _ (List.Mem.head _))))),
    ⟨"AIRFLOW__DATABASE__SQL_ALCHEMY_CONN=postgresql+psycopg2://airflow:airflow", rfl⟩⟩⟩

/-- C8: the Init container is declared with restart policy `on-failure`, a
single dependency edge on the Database container, and a `/bin/bash -c`
script in which the ownership fix-up (`chown`) of the logs/dags/plugins
paths precedes the database commands, which appear in the order: version
check, schema initialisation (`db init`), schema migration, and a final
connectivity check (`db check`) that is `exec`-ed, so the container's exit
status is the final check's status. -/
theorem c8_init_container_bootstrap (v r n : String) :
    (airflow_init v r n).restart = some ("on-failure") ∧
    (airflow_init v r n).depends_on = ["airflow_postgres"] ∧
    (airflow_init v r n).entrypoints = some ["/bin/bash"] ∧
    (airflow_init v r n).command = ["-c", init_script] ∧
    init_script_lines.filter (fun l => containsSubstring ("/entrypoint airflow db") l) =
      [ "/entrypoint airflow db version",
        "/entrypoint airflow db init ",
        "/entrypoint airflow db migrate",
        "exec /entrypoint airflow db check " ] ∧
    init_script_lines.filter
        (fun l => containsSubstring ("chown") l ||
                  containsSubstring ("/entrypoint airflow db") l) =
      [ "chown -R \"$\x7bAIRFLOW_UID:-0\x7d:0\" /sources/\x7blogs,dags,plugins\x7d",
        "/entrypoint airflow db version",
        "/entrypoint airflow db init ",
        "/entrypoint airflow db migrate",
        "exec /entrypoint airflow db check " ] ∧
    ("exec ").data.isPrefixOf ("exec /entrypoint airflow db check ").data = true := by
  refine ⟨rfl, rfl, rfl, rfl, by decide, by decide, by decide⟩

/-- C9 counterexample: the last entry of the shared bundle, the webserver
secret-key flag, reads `AIRFLOW__WEBSERVER__SECRET_KEY:false` and contains
no `=` — refuting the claim that every entry has `KEY=VALUE` form. -/
theorem c9_counterexample :
    ("AIRFLOW__WEBSERVER__SECRET_KEY:false" ∈
      resolvedCommon ("us-east-1")
        { bucket := "my-bucket", access_key_id := "AKIA...",
          access_key_secret := "xyz", db_name := "airflow_postgres-1",
          redis_name := "airflow-redis-1" }) ∧
    hasEqSign ("AIRFLOW__WEBSERVER__SECRET_KEY:false") = false := by
  decide

/-- C9 (amended): every entry of the composed bundle — eager or resolved
deferred — contains an `=` separating a key from a value, except the final
entry (line 133), which reads `AIRFLOW__WEBSERVER__SECRET_KEY:false` with a
`:` in place of the `=`; the component-specific entries appended by Init,
Worker and Scheduler all have `KEY=VALUE` form. -/
theorem c9_env_entries_key_value (v r n : String) (res : Res) :
    List.Forall (fun e => hasEqSign e = true) ((resolvedCommon r res).take 10) ∧
    (resolvedCommon r res).get? 10 = some ("AIRFLOW__WEBSERVER__SECRET_KEY:false") ∧
    hasEqSign ("AIRFLOW__WEBSERVER__SECRET_KEY:false") = false ∧
    List.Forall (fun e => hasEqSign e = true)
      ((resolvedEnvs (airflow_init v r n) res).drop 11) ∧
    List.Forall (fun e => hasEqSign e = true)
      ((resolvedEnvs (airflow_celery_worker v r n) res).drop 11) ∧
    List.Forall (fun e => hasEqSign e = true)
      ((resolvedEnvs (airflow_scheduler v r n) res).drop 11) := by
  refine ⟨?_, rfl, by decide, ?_, ?_, ?_⟩
  · exact ⟨hasEqSign_append_left _ _ (by decide),
           hasEqSign_append_left _ _ (by decide),
           hasEqSign_append_left _ _ (by decide),
           hasEqSign_append_left _ _ (by decide),
           rfl,
           hasEqSign_append_left _ _ (hasEqSign_append_left _ _ (by decide)),
           hasEqSign_append_left _ _ (hasEqSign_append_left _ _ (by decide)),
           hasEqSign_append_left _ _ (hasEqSign_append_left _ _ (by decide)),
           rfl,
           rfl⟩
  · exact ⟨rfl, rfl, rfl⟩
  · exact rfl
  · exact hasEqSign_append_left _ _ (by decide)

/-- C10: the Database and Cache containers are both declared with restart
policy `unless-stopped`, exactly one network attachment, and a health probe
running the service's native readiness command (`pg_isready` for Postgres,
`redis-cli ping` for Redis); the Database alone receives one managed volume
mounted at `/var/lib/postgresql/data` and the literal credential entries
`POSTGRES_PASSWORD=airflow`, `POSTGRES_USER=airflow`, `POSTGRES_DB=airflow`,
while the Cache receives no volume and no environment entries. -/
theorem c10_backing_services ( POSTGRES_PORT : Nat) (network_name volume_name : String)
    (res : Res) :
    (postgres_container POSTGRES_PORT network_name volume_name).restart =
      some ("unless-stopped") ∧
    (redis_container network_name).restart = some ("unless-stopped") ∧
    (postgres_container POSTGRES_PORT network_name volume_name).networks_advanced =
      [network_name] ∧
    (redis_container network_name).networks_advanced = [network_name] ∧
    ((postgres_container POSTGRES_PORT network_name volume_name).healthcheck.map
      (fun h => h.tests)) = some ["CMD", "pg_isready", "-U", "airflow"] ∧
    ((redis_container network_name).healthcheck.map (fun h => h.tests)) =
      some ["CMD", "redis-cli", "ping"] ∧
    (postgres_container POSTGRES_PORT network_name volume_name).volumes =
      [ { container_path := "/var/lib/postgresql/data",
          read_only := false,
          volume_name := some volume_name } ] ∧
    resolvedEnvs (postgres_container POSTGRES_PORT network_name volume_name) res =
      ["POSTGRES_PASSWORD=airflow", "POSTGRES_USER=airflow", "POSTGRES_DB=airflow"] ∧
    (redis_container network_name).volumes = [] ∧
    resolvedEnvs (redis_container network_name) res = [] :=
  ⟨rfl, rfl, rfl, rfl, rfl, rfl, rfl, rfl, rfl, rfl⟩

end AirflowPulumi
